import Mathlib

/-!
Shallow embedding of the review-management backend: sentiment classification,
keyword topic extraction, the review store (single and batch insert, reply
read/write), the reply cache/generator orchestration, the reply-fetch
endpoint, the external reply generator, and TF-IDF similarity ranking.
External collaborators (the VADER lexicon scorer, the Gemini text generator,
the sklearn vectorizer) are modelled as explicit parameters; everything else
is translated from the Python source.
-/

set_option maxHeartbeats 1000000

namespace ReviewCopilot

/-- Raw review as submitted to the ingest endpoint (main.py ReviewInput). -/
structure ReviewInput where
  id : String
  location : String
  rating : Int
  date : String
  text : String
deriving DecidableEq, Repr

/-- Enriched review (main.py ReviewOutput / the dicts kept in reviews_db). -/
structure Review where
  id : String
  location : String
  rating : Int
  date : String
  text : String
  sentiment : String
  topics : List String
deriving DecidableEq, Repr

/-- One row of the sqlite reviews table (database.py schema): the enriched
fields plus a nullable suggested_reply column. -/
structure DbRow where
  id : String
  location : String
  rating : Int
  date : String
  text : String
  sentiment : String
  topics : List String
  suggested_reply : Option String
deriving DecidableEq, Repr

/-- Errors surfaced by the endpoints (HTTPException status classes). -/
inductive ApiError where
  | badRequest (detail : String)
  | notFound (detail : String)
  | serverError (detail : String)
deriving DecidableEq, Repr

/-! ## Sentiment classifier (main.py analyze_sentiment)

The VADER compound score is produced by the external nltk collaborator; the
classifier is modelled parametrically in that scorer, with the score as an
exact rational. -/

/-- main.py analyze_sentiment: threshold the compound polarity score at
plus and minus 0.05.  `sia` is the external lexicon scorer
(SentimentIntensityAnalyzer), passed as a parameter. -/
def analyze_sentiment (sia : String → ℚ) (text : String) : String :=
  if sia text ≥ 5/100 then "positive"
  else if sia text ≤ -(5/100) then "negative"
  else "neutral"

/-! ## Topic extractor (main.py extract_topics) -/

/-- main.py TOPIC_KEYWORDS, in dictionary insertion order. -/
def TOPIC_KEYWORDS : List (String × List String) := [
  ("professionalism", ["professional", "professionalism", "expert", "expertise", "skilled", "competent"]),
  ("efficiency", ["efficient", "efficiency", "quick", "fast", "timely", "prompt", "speedy"]),
  ("quality", ["quality", "excellent", "perfect", "great", "outstanding", "superb", "top-notch"]),
  ("customer_service", ["service", "helpful", "friendly", "courteous", "attentive", "responsive"]),
  ("communication", ["communication", "communicate", "informed", "updates", "clear", "transparent"]),
  ("timeliness", ["on time", "punctual", "deadline", "schedule", "timely"]),
  ("price", ["price", "cost", "expensive", "cheap", "affordable", "value", "worth"]),
  ("cleanliness", ["clean", "cleanliness", "tidy", "neat", "spotless", "organized"]),
  ("reliability", ["reliable", "dependable", "trustworthy", "consistent", "trust"]),
  ("experience", ["experience", "knowledgeable", "seasoned", "veteran"])]

/-- Word character for the regex metacharacter backslash-b (Python re word
boundary): alphanumeric or underscore. -/
def isWordChar (c : Char) : Bool := c.isAlphanum || c == '_'

/-- Whether the character at index `i` of `l` is a word character; out of
range counts as not a word character. -/
def wordAt (l : List Char) (i : Nat) : Bool := isWordChar (l.getD i ' ')

/-- The regex word boundary holds at position `p` of `l` (between indices
p-1 and p) iff exactly one side is a word character. -/
def hasBoundary (l : List Char) (p : Nat) : Bool :=
  (if p = 0 then false else wordAt l (p - 1)) != wordAt l p

/-- The escaped keyword `kw`, wrapped in word boundaries, matches `text`
starting at position `i`. -/
def matchAt (kw text : List Char) (i : Nat) : Bool :=
  decide ((text.drop i).take kw.length = kw) &&
    hasBoundary text i && hasBoundary text (i + kw.length)

/-- Model of re.search for the pattern boundary + re.escape(keyword) +
boundary: some starting position in the text matches. -/
def searchWord (keyword text : String) : Bool :=
  (List.range (text.data.length + 1)).any (fun i => matchAt keyword.data text.data i)

/-- main.py extract_topics: lower-case the text; for each topic in
dictionary order record it if any of its keywords matches as a whole word
(the inner loop breaks on the first matching keyword, so each topic appears
at most once); fall back to the single label "general". -/
def extract_topics (text : String) : List String :=
  let text_lower := text.toLower
  let matched_topics := TOPIC_KEYWORDS.filterMap
    (fun p => if p.2.any (fun keyword => searchWord keyword text_lower) then some p.1 else none)
  if matched_topics.isEmpty then ["general"] else matched_topics

/-! ## Review store (database.py ReviewDatabase)

The sqlite reviews table is modelled as a list of rows; the PRIMARY KEY
constraint surfaces as the duplicate-id check, and every method catches its
own errors and returns the documented fallback, exactly as in the source. -/

/-- Convert an enriched review to a fresh table row (suggested_reply is
inserted as NULL). -/
def toRow (r : Review) : DbRow :=
  { id := r.id, location := r.location, rating := r.rating, date := r.date,
    text := r.text, sentiment := r.sentiment, topics := r.topics,
    suggested_reply := none }

/-- database.py add_review: INSERT a single row; a duplicate id raises
IntegrityError, which is caught and reported as False with no mutation. -/
def add_review (rows : List DbRow) (r : Review) : Bool × List DbRow :=
  if rows.any (fun row => row.id = r.id) then (false, rows)
  else (true, rows ++ [toRow r])

/-- The row-by-row effect of cursor.executemany on the INSERT statement:
insert each review in order, aborting with none at the first duplicate id
(IntegrityError). -/
def insertAllRows : List DbRow → List Review → Option (List DbRow)
  | rows, [] => some rows
  | rows, r :: rest =>
      if rows.any (fun row => row.id = r.id) then none
      else insertAllRows (rows ++ [toRow r]) rest

/-- database.py add_reviews_batch: executemany inside one transaction; on
IntegrityError the transaction is rolled back, so the table is unchanged and
False is returned. -/
def add_reviews_batch (rows : List DbRow) (reviews : List Review) : Bool × List DbRow :=
  match insertAllRows rows reviews with
  | none => (false, rows)
  | some updated => (true, updated)

/-- database.py add_suggested_reply: UPDATE the suggested_reply column of
every row whose id matches; rowcount zero is reported as False.  `fault`
models a storage exception during the statement, caught by the catch-all
branch which returns False with no committed change. -/
def add_suggested_reply (fault : Bool) (rows : List DbRow) (review_id : String)
    (suggested_reply : String) : Bool × List DbRow :=
  if fault then (false, rows)
  else if rows.any (fun row => row.id = review_id) then
    (true, rows.map (fun row =>
      if row.id = review_id then { row with suggested_reply := some suggested_reply } else row))
  else (false, rows)

/-- database.py get_suggested_reply: SELECT the suggested_reply of the row
with this id; the row must exist and the value must be truthy (non-NULL and
non-empty), else None. -/
def get_suggested_reply (rows : List DbRow) (review_id : String) : Option String :=
  match rows.find? (fun row => row.id = review_id) with
  | none => none
  | some row =>
      match row.suggested_reply with
      | none => none
      | some reply => if reply = "" then none else some reply

/-- The enriched-review view of a row, as produced by
database.py get_all_reviews_as_json (the reply column is not part of the
ReviewOutput fields the callers read). -/
def rowToReview (row : DbRow) : Review :=
  { id := row.id, location := row.location, rating := row.rating, date := row.date,
    text := row.text, sentiment := row.sentiment, topics := row.topics }

/-- database.py get_all_reviews_as_json, already parsed back from JSON. -/
def get_all_reviews (rows : List DbRow) : List Review := rows.map rowToReview

/-! ## Ingest endpoint (main.py ingest_review)

System state: the in-memory reviews_db list plus the sqlite table. -/

/-- The two storage tiers of the running service: the in-memory reviews_db
list and the sqlite table. -/
structure SysState where
  mem : List Review
  db : List DbRow
deriving DecidableEq, Repr

/-- main.py ingest_review.process_single_review: reject an id already in
the in-memory list with a 400, else enrich with sentiment and topics. -/
def process_single_review (sia : String → ℚ) (mem : List Review) (review_data : ReviewInput) :
    Except ApiError Review :=
  if mem.any (fun r => r.id = review_data.id) then
    .error (.badRequest ("Review with id " ++ review_data.id ++ " already exists"))
  else
    .ok { id := review_data.id, location := review_data.location,
          rating := review_data.rating, date := review_data.date,
          text := review_data.text,
          sentiment := analyze_sentiment sia review_data.text,
          topics := extract_topics review_data.text }

/-- main.py ingest_review, single-review branch: duplicate check against
the in-memory list, then append to memory, then best-effort insert into the
database (a False or an exception there only logs a warning). -/
def ingest_single (sia : String → ℚ) (st : SysState) (review : ReviewInput) :
    Except ApiError Review × SysState :=
  match process_single_review sia st.mem review with
  | .error e => (.error e, st)
  | .ok enriched_review =>
      let mem1 := st.mem ++ [enriched_review]
      let result := add_review st.db enriched_review
      (.ok enriched_review, ⟨mem1, result.2⟩)

/-- The first loop of the batch branch of main.py ingest_review: each
review is checked against the in-memory list only (not against the batch
accumulated so far); the first duplicate aborts the whole request before
any state is touched. -/
def processAll (sia : String → ℚ) (mem : List Review) :
    List ReviewInput → Except ApiError (List Review)
  | [] => .ok []
  | review_item :: rest =>
      match process_single_review sia mem review_item with
      | .error e => .error e
      | .ok enriched =>
          match processAll sia mem rest with
          | .error e => .error e
          | .ok more => .ok (enriched :: more)

/-- main.py ingest_review, list branch: process every review against the
in-memory list, extend the in-memory list with all of them, then a single
best-effort batch insert into the database. -/
def ingest_batch (sia : String → ℚ) (st : SysState) (reviews : List ReviewInput) :
    Except ApiError (List Review) × SysState :=
  match processAll sia st.mem reviews with
  | .error e => (.error e, st)
  | .ok enriched_reviews =>
      let mem1 := st.mem ++ enriched_reviews
      let result := add_reviews_batch st.db enriched_reviews
      (.ok enriched_reviews, ⟨mem1, result.2⟩)

/-! ## External reply generator (ai_services.py GenerateReviewReply) -/

/-- Outcome of the Gemini generate_content call: the call raised, or it
returned a response whose text attribute is absent-or-None (`none`) or a
string, together with the result of the candidates[0].text fallback access
(`none` when that access itself raises). -/
inductive ServiceOutcome where
  | raised
  | ok (text : Option String) (candidateText : Option String)
deriving DecidableEq, Repr

/-- The fallback returned when the generation call raises. -/
def fallbackApology : String :=
  "Thank you for your feedback. We encountered a technical issue while generating a reply, but we value your concern. Please reach out to us at customerservice@email.com, and we’ll be glad to assist you."

/-- The fallback returned when both the text attribute and the candidates
fallback are unavailable. -/
def fallbackSecondary : String :=
  "Thank you for your message. We\x27ll get back to you via support soon."

namespace GenerateReviewReply

/-- ai_services.py GenerateReviewReply.generate_reply: on an exception
return the apology fallback; otherwise return response.text when present,
else the candidates[0].text value, else the secondary fallback.  The
review text only feeds the prompt, so the outcome of the external call is
the explicit `outcome` parameter. -/
def generate_reply (outcome : ServiceOutcome) (_review_text : String) : String :=
  match outcome with
  | .raised => fallbackApology
  | .ok text candidateText =>
      match text with
      | some reply_text => reply_text
      | none =>
          match candidateText with
          | some reply_text => reply_text
          | none => fallbackSecondary

end GenerateReviewReply

/-! ## Reply orchestrator and reply fetch (main.py generate_reply, get_reply) -/

/-- Response body of the generate-reply endpoint. -/
structure GenerateReplyResponse where
  review_id : String
  review_text : String
  suggested_reply : String
deriving DecidableEq, Repr

/-- The review lookup at the top of main.py generate_reply: the in-memory
list first, then the parsed database dump. -/
def find_review (st : SysState) (review_id : String) : Option Review :=
  match st.mem.find? (fun r => r.id = review_id) with
  | some r => some r
  | none => (get_all_reviews st.db).find? (fun r => r.id = review_id)

/-- main.py generate_reply: 404 when the id is in neither tier; return a
cached non-empty stored reply without generating; otherwise call the
external generator (`gen calls` is the string produced by its next
invocation, and the returned counter counts invocations), best-effort
persist the result, and return it.  `writeFault` is the storage-exception
injection for the persistence step, whose failure is only logged. -/
def generate_reply_ep (gen : Nat → String) (writeFault : Bool) (st : SysState)
    (calls : Nat) (review_id : String) :
    Except ApiError GenerateReplyResponse × Nat × SysState :=
  match find_review st review_id with
  | none => (.error (.notFound ("Review with id " ++ review_id ++ " not found")), calls, st)
  | some review =>
      match get_suggested_reply st.db review_id with
      | some existing_reply =>
          (.ok ⟨review_id, review.text, existing_reply⟩, calls, st)
      | none =>
          let suggested_reply := gen calls
          let stored := add_suggested_reply writeFault st.db review_id suggested_reply
          (.ok ⟨review_id, review.text, suggested_reply⟩, calls + 1, ⟨st.mem, stored.2⟩)

/-- Response body of the reply-fetch endpoint. -/
structure StoredReplyResponse where
  review_id : String
  reply : String
deriving DecidableEq, Repr

/-- main.py get_reply: 404 when get_suggested_reply reports no stored
reply, else the stored reply. -/
def get_reply_ep (rows : List DbRow) (review_id : String) :
    Except ApiError StoredReplyResponse :=
  match get_suggested_reply rows review_id with
  | none => .error (.notFound ("No reply found for review " ++ review_id))
  | some reply => .ok ⟨review_id, reply⟩

/-! ## Similarity finder (search_service.py find_similar_reviews)

The TF-IDF vectorization and the cosine-similarity row are produced by the
external sklearn collaborator; per the specification the entries are
cosine similarities of non-negative TF-IDF vectors, so they lie in [0, 1].
They enter the model as the explicit `cosine_sims` parameter; everything
downstream of that call (the corpus-size guard, the target lookup loop,
forcing the self-similarity to -1, np.argsort, the slice-and-reverse
selection) is translated from the source. -/

/-- The target-index loop of find_similar_reviews: iterate over the corpus
in order, overwriting the recorded index on every id match, so the LAST
matching index wins. -/
def lastMatchIdxAux (review_id : String) : List String → Nat → Option Nat → Option Nat
  | [], _, acc => acc
  | x :: xs, i, acc =>
      lastMatchIdxAux review_id xs (i + 1) (if x = review_id then some i else acc)

/-- Index of the last review whose id equals `review_id`, or none. -/
def lastMatchIdx (review_id : String) (ids : List String) : Option Nat :=
  lastMatchIdxAux review_id ids 0 none

/-- The comparison np.argsort sorts indices by: similarity value at the
index, ascending (out-of-range reads as 0, never exercised in range). -/
def simLe (sims : List ℚ) (i j : Nat) : Prop := sims.getD i 0 ≤ sims.getD j 0

instance (sims : List ℚ) : DecidableRel (simLe sims) :=
  fun i j => inferInstanceAs (Decidable (sims.getD i 0 ≤ sims.getD j 0))

instance (sims : List ℚ) : IsTotal Nat (simLe sims) :=
  ⟨fun i j => le_total (sims.getD i 0) (sims.getD j 0)⟩

instance (sims : List ℚ) : IsTrans Nat (simLe sims) :=
  ⟨fun _ _ _ h1 h2 => le_trans h1 h2⟩

/-- np.argsort: the indices 0..n-1 ordered so the similarity values are
ascending (ties in unspecified order; the claims do not constrain them). -/
def argsortAsc (sims : List ℚ) : List Nat :=
  (List.range sims.length).insertionSort (simLe sims)

/-- search_service.py find_similar_reviews, downstream of the corpus fetch:
fewer than 2 reviews return the empty list; an absent query id raises
ValueError; otherwise the self-similarity is forced to -1, the indices are
argsorted ascending, the last min(2, n-1) are taken and reversed, and the
ids at those indices are returned. -/
def find_similar_reviews (review_id : String) (all_reviews : List Review)
    (cosine_sims : List ℚ) : Except String (List String) :=
  if all_reviews.length < 2 then .ok []
  else
    match lastMatchIdx review_id (all_reviews.map (fun r => r.id)) with
    | none => .error ("Review with ID " ++ review_id ++ " not found")
    | some target_idx =>
        let similarities := cosine_sims.set target_idx (-1)
        let num_similar := min 2 (all_reviews.length - 1)
        let sorted_indices := argsortAsc similarities
        let similar_indices := (sorted_indices.drop (sorted_indices.length - num_similar)).reverse
        .ok (similar_indices.map (fun idx => (all_reviews.map (fun r => r.id)).getD idx ""))

/-! ## Helper lemmas -/

theorem filterMap_guard_eq_map_filter {α β : Type} (pr : α → Bool) (f : α → β) :
    ∀ l : List α,
      l.filterMap (fun a => if pr a then some (f a) else none) = (l.filter pr).map f
  | [] => rfl
  | a :: l => by
      by_cases h : pr a <;>
        simp [List.filterMap_cons, List.filter_cons, h, filterMap_guard_eq_map_filter pr f l]

theorem insertAllRows_none_of_dup :
    ∀ (reviews : List Review) (rows : List DbRow),
      ((∃ r ∈ reviews, rows.any (fun row => row.id = r.id) = true) ∨
        ¬ (reviews.map (fun r => r.id)).Nodup) →
      insertAllRows rows reviews = none := by
  intro reviews
  induction reviews with
  | nil =>
      intro rows h
      rcases h with ⟨r, hr, _⟩ | hnd
      · exact absurd hr (List.not_mem_nil r)
      · simp at hnd
  | cons r rest ih =>
      intro rows h
      by_cases hdup : rows.any (fun row => row.id = r.id)
      · simp [insertAllRows, hdup]
      · have step : insertAllRows rows (r :: rest) = insertAllRows (rows ++ [toRow r]) rest := by
          simp [insertAllRows, hdup]
        rw [step]
        apply ih
        rcases h with ⟨r', hr', hany⟩ | hnd
        · rcases List.mem_cons.1 hr' with rfl | hr'
          · exact absurd hany hdup
          · refine Or.inl ⟨r', hr', ?_⟩
            rcases List.any_eq_true.1 hany with ⟨row, hrow, hid⟩
            exact List.any_eq_true.2 ⟨row, List.mem_append_left _ hrow, hid⟩
        · rw [List.map_cons, List.nodup_cons] at hnd
          push_neg at hnd
          by_cases hmem : r.id ∈ rest.map (fun x => x.id)
          · rcases List.mem_map.1 hmem with ⟨r', hr', hid⟩
            refine Or.inl ⟨r', hr', ?_⟩
            exact List.any_eq_true.2
              ⟨toRow r, List.mem_append_right _ (List.mem_singleton_self _), by simp [toRow, hid]⟩
          · exact Or.inr (hnd hmem)

theorem processAll_error_of_dup (sia : String → ℚ) (mem : List Review) :
    ∀ reviews : List ReviewInput,
      (∃ r ∈ reviews, mem.any (fun m => m.id = r.id) = true) →
      ∃ e, processAll sia mem reviews = .error e := by
  intro reviews
  induction reviews with
  | nil => rintro ⟨r, hr, _⟩; exact absurd hr (List.not_mem_nil r)
  | cons r rest ih =>
      rintro ⟨r', hr', hany⟩
      rcases List.mem_cons.1 hr' with rfl | hr'
      · exact ⟨.badRequest ("Review with id " ++ r'.id ++ " already exists"),
          by simp [processAll, process_single_review, hany]⟩
      · by_cases hfirst : mem.any (fun m => m.id = r.id)
        · exact ⟨.badRequest ("Review with id " ++ r.id ++ " already exists"),
            by simp [processAll, process_single_review, hfirst]⟩
        · rcases ih ⟨r', hr', hany⟩ with ⟨e, he⟩
          exact ⟨e, by simp [processAll, process_single_review, hfirst, he]⟩

/-! ## Claim theorems -/

/-- C5: analyze_sentiment returns "positive" exactly when the compound
polarity score is at least 0.05, "negative" exactly when it is at most
-0.05, and "neutral" otherwise; it is total by construction, and a zero
score (the lexicon score of empty text) yields "neutral". -/
theorem claim_C5 (sia : String → ℚ) (text : String) :
    (analyze_sentiment sia text = "positive" ↔ sia text ≥ 5/100) ∧
    (analyze_sentiment sia text = "negative" ↔ sia text ≤ -(5/100)) ∧
    (analyze_sentiment sia text = "neutral" ↔
      (-(5/100) < sia text ∧ sia text < 5/100)) ∧
    (sia text = 0 → analyze_sentiment sia text = "neutral") := by
  unfold analyze_sentiment
  split_ifs with h1 h2
  · exact ⟨iff_of_true rfl h1,
      iff_of_false (by decide) (by intro h; linarith),
      iff_of_false (by decide) (by rintro ⟨-, h⟩; linarith),
      by intro h; rw [h] at h1; norm_num at h1⟩
  · exact ⟨iff_of_false (by decide) h1,
      iff_of_true rfl h2,
      iff_of_false (by decide) (by rintro ⟨h, -⟩; linarith),
      by intro h; rw [h] at h2; norm_num at h2⟩
  · exact ⟨iff_of_false (by decide) h1,
      iff_of_false (by decide) h2,
      iff_of_true rfl ⟨by linarith [not_le.1 h2], by linarith [not_le.1 h1]⟩,
      fun _ => rfl⟩

/-- C5 witness: with the scorer returning 0 (as the lexicon does on empty
text), the classification of the empty text is "neutral". -/
theorem claim_C5_witness :
    analyze_sentiment (fun _ => (0 : ℚ)) "" = "neutral" :=
  (claim_C5 (fun _ => (0 : ℚ)) "").2.2.2 rfl

/-- C7 counterexample: when the external call succeeds and its text field
is the empty string, generate_reply returns the empty string, so it does
not return a non-empty string for every review text. -/
theorem claim_C7_counterexample :
    GenerateReviewReply.generate_reply (.ok (some "") none) "Great product" = "" := rfl

/-- C7 amended: generate_reply returns a non-empty string unless the
service itself successfully delivers an empty text (or empty candidate
text) value: a raised exception yields the fixed apology fallback, and a
missing text field with a failing candidate access yields the fixed
secondary fallback, both non-empty. -/
theorem claim_C7_amended (outcome : ServiceOutcome) (review_text : String) :
    (GenerateReviewReply.generate_reply outcome review_text = "" →
      (∃ c, outcome = .ok (some "") c) ∨ outcome = .ok none (some "")) ∧
    (outcome = .raised →
      GenerateReviewReply.generate_reply outcome review_text = fallbackApology) ∧
    (∀ c, outcome = .ok none c → c = none →
      GenerateReviewReply.generate_reply outcome review_text = fallbackSecondary) ∧
    fallbackApology ≠ "" ∧ fallbackSecondary ≠ "" := by
  refine ⟨?_, ?_, ?_, by decide, by decide⟩
  · intro h
    cases outcome with
    | raised =>
        simp only [GenerateReviewReply.generate_reply] at h
        exact absurd h (by decide)
    | ok text candidateText =>
        cases text with
        | some s =>
            left
            exact ⟨candidateText, by simpa [GenerateReviewReply.generate_reply] using h⟩
        | none =>
            cases candidateText with
            | some s => right; simpa [GenerateReviewReply.generate_reply] using h
            | none =>
                simp only [GenerateReviewReply.generate_reply] at h
                exact absurd h (by decide)
  · rintro rfl; rfl
  · rintro c rfl rfl; rfl

/-- C7 witness: a raised service call produces the apology fallback, which
is non-empty. -/
theorem claim_C7_witness :
    GenerateReviewReply.generate_reply .raised "Bad service" = fallbackApology ∧
      fallbackApology ≠ "" :=
  ⟨(claim_C7_amended .raised "Bad service").2.1 rfl,
    (claim_C7_amended .raised "Bad service").2.2.2.1⟩

/-- C2: inserting a review whose id already exists fails and mutates
nothing: at the store layer add_review reports False and leaves the table
unchanged, and at the endpoint a duplicate against the in-memory list is
rejected with a 400 leaving the whole state (memory and table) unchanged. -/
theorem claim_C2 (rows : List DbRow) (r : Review) (sia : String → ℚ)
    (st : SysState) (review : ReviewInput) :
    (rows.any (fun row => row.id = r.id) = true → add_review rows r = (false, rows)) ∧
    (st.mem.any (fun m => m.id = review.id) = true →
      ∃ detail, ingest_single sia st review = (.error (.badRequest detail), st)) := by
  constructor
  · intro h; simp [add_review, h]
  · intro h
    exact ⟨"Review with id " ++ review.id ++ " already exists",
      by simp [ingest_single, process_single_review, h]⟩

/-- C2 witness: a concrete duplicate insert fails without mutating either
tier. -/
theorem claim_C2_witness :
    add_review [⟨"rev001", "NY", 5, "2025-10-04", "ok", "neutral", ["general"], none⟩]
        ⟨"rev001", "LA", 1, "2025-10-05", "bad", "negative", ["general"]⟩ =
      (false, [⟨"rev001", "NY", 5, "2025-10-04", "ok", "neutral", ["general"], none⟩]) ∧
    ∃ detail,
      ingest_single (fun _ => (0 : ℚ))
          ⟨[⟨"rev001", "NY", 5, "2025-10-04", "ok", "neutral", ["general"]⟩], []⟩
          ⟨"rev001", "LA", 1, "2025-10-05", "bad"⟩ =
        (.error (.badRequest detail),
          ⟨[⟨"rev001", "NY", 5, "2025-10-04", "ok", "neutral", ["general"]⟩], []⟩) :=
  ⟨(claim_C2 [⟨"rev001", "NY", 5, "2025-10-04", "ok", "neutral", ["general"], none⟩]
      ⟨"rev001", "LA", 1, "2025-10-05", "bad", "negative", ["general"]⟩ (fun _ => (0 : ℚ))
      ⟨[⟨"rev001", "NY", 5, "2025-10-04", "ok", "neutral", ["general"]⟩], []⟩
      ⟨"rev001", "LA", 1, "2025-10-05", "bad"⟩).1 (by decide),
   (claim_C2 [⟨"rev001", "NY", 5, "2025-10-04", "ok", "neutral", ["general"], none⟩]
      ⟨"rev001", "LA", 1, "2025-10-05", "bad", "negative", ["general"]⟩ (fun _ => (0 : ℚ))
      ⟨[⟨"rev001", "NY", 5, "2025-10-04", "ok", "neutral", ["general"]⟩], []⟩
      ⟨"rev001", "LA", 1, "2025-10-05", "bad"⟩).2 (by decide)⟩

/-- C3: the batch insert is all-or-nothing: whenever some id in the batch
duplicates another id of the batch or an id already in the table,
add_reviews_batch reports failure and the table is unchanged; moreover, at
the endpoint, a batch id already present in the in-memory list aborts the
whole request with no state change in either tier. -/
theorem claim_C3 (rows : List DbRow) (reviews : List Review) (sia : String → ℚ)
    (st : SysState) (inputs : List ReviewInput) :
    (((∃ r ∈ reviews, rows.any (fun row => row.id = r.id) = true) ∨
        ¬ (reviews.map (fun r => r.id)).Nodup) →
      add_reviews_batch rows reviews = (false, rows)) ∧
    ((∃ r ∈ inputs, st.mem.any (fun m => m.id = r.id) = true) →
      ∃ e, ingest_batch sia st inputs = (.error e, st)) := by
  constructor
  · intro h
    have := insertAllRows_none_of_dup reviews rows h
    simp [add_reviews_batch, this]
  · intro h
    rcases processAll_error_of_dup sia st.mem inputs h with ⟨e, he⟩
    exact ⟨e, by simp [ingest_batch, he]⟩

/-- C3 witness: a batch holding the same id twice is rejected by the store
with the table unchanged, and a batch repeating an in-memory id aborts the
endpoint with no state change. -/
theorem claim_C3_witness :
    add_reviews_batch []
        [⟨"a", "NY", 5, "d", "t", "neutral", ["general"]⟩,
         ⟨"a", "LA", 1, "d", "u", "neutral", ["general"]⟩] =
      (false, []) ∧
    ∃ e, ingest_batch (fun _ => (0 : ℚ))
        ⟨[⟨"a", "NY", 5, "d", "t", "neutral", ["general"]⟩], []⟩
        [⟨"a", "LA", 1, "d", "u"⟩] =
      (.error e, ⟨[⟨"a", "NY", 5, "d", "t", "neutral", ["general"]⟩], []⟩) :=
  ⟨(claim_C3 []
      [⟨"a", "NY", 5, "d", "t", "neutral", ["general"]⟩,
       ⟨"a", "LA", 1, "d", "u", "neutral", ["general"]⟩] (fun _ => (0 : ℚ))
      ⟨[⟨"a", "NY", 5, "d", "t", "neutral", ["general"]⟩], []⟩
      [⟨"a", "LA", 1, "d", "u"⟩]).1 (Or.inr (by decide)),
   (claim_C3 []
      [⟨"a", "NY", 5, "d", "t", "neutral", ["general"]⟩,
       ⟨"a", "LA", 1, "d", "u", "neutral", ["general"]⟩] (fun _ => (0 : ℚ))
      ⟨[⟨"a", "NY", 5, "d", "t", "neutral", ["general"]⟩], []⟩
      [⟨"a", "LA", 1, "d", "u"⟩]).2
     ⟨⟨"a", "LA", 1, "d", "u"⟩, List.mem_singleton_self _, by decide⟩⟩

/-- C4: extract_topics returns exactly the topic labels one of whose
keywords matches the lower-cased text as a whole word, each matched topic
once, in the dictionary enumeration order (a sublist of the key order),
and exactly ["general"] when no topic matches; the result is never
empty. -/
theorem claim_C4 (text : String) :
    extract_topics text ≠ [] ∧
    (extract_topics text).Nodup ∧
    (∀ t : String,
      t ∈ extract_topics text ↔
        ((∃ p ∈ TOPIC_KEYWORDS, p.1 = t ∧
            ∃ kw ∈ p.2, searchWord kw text.toLower = true) ∨
         (t = "general" ∧
           ∀ p ∈ TOPIC_KEYWORDS, ∀ kw ∈ p.2, searchWord kw text.toLower = false))) ∧
    ((extract_topics text).Sublist (TOPIC_KEYWORDS.map Prod.fst) ∨
      extract_topics text = ["general"]) := by
  have hkey : (TOPIC_KEYWORDS.map Prod.fst).Nodup := by decide
  have hfm : TOPIC_KEYWORDS.filterMap
      (fun p => if p.2.any (fun keyword => searchWord keyword text.toLower) then some p.1 else none) =
      (TOPIC_KEYWORDS.filter
        (fun p => p.2.any (fun keyword => searchWord keyword text.toLower))).map Prod.fst :=
    filterMap_guard_eq_map_filter _ _ _
  have hdef : extract_topics text =
      if ((TOPIC_KEYWORDS.filter
            (fun p => p.2.any (fun keyword => searchWord keyword text.toLower))).map Prod.fst).isEmpty
      then ["general"]
      else (TOPIC_KEYWORDS.filter
            (fun p => p.2.any (fun keyword => searchWord keyword text.toLower))).map Prod.fst := by
    simp only [extract_topics, hfm]
  by_cases hc : (TOPIC_KEYWORDS.filter
      (fun p => p.2.any (fun keyword => searchWord keyword text.toLower))).map Prod.fst = []
  · have hall : ∀ p ∈ TOPIC_KEYWORDS,
        (p.2.any (fun keyword => searchWord keyword text.toLower)) = false := by
      rw [List.map_eq_nil_iff, List.filter_eq_nil_iff] at hc
      intro p hp
      simpa using hc p hp
    have hext : extract_topics text = ["general"] := by rw [hdef, hc]; rfl
    refine ⟨by rw [hext]; simp, by rw [hext]; simp, ?_, Or.inr hext⟩
    intro t
    rw [hext]
    constructor
    · intro ht
      have ht' : t = "general" := by simpa using ht
      refine Or.inr ⟨ht', ?_⟩
      intro p hp kw hkw
      have hfalse := List.any_eq_false.1 (hall p hp) kw hkw
      simpa using hfalse
    · rintro (⟨p, hp, -, kw, hkw, hmatch⟩ | ⟨rfl, -⟩)
      · have hfalse := List.any_eq_false.1 (hall p hp) kw hkw
        exact absurd hmatch (by simpa using hfalse)
      · simp
  · have hext : extract_topics text = (TOPIC_KEYWORDS.filter
        (fun p => p.2.any (fun keyword => searchWord keyword text.toLower))).map Prod.fst := by
      rw [hdef]
      simp [List.isEmpty_iff, hc]
    have hsub : (extract_topics text).Sublist (TOPIC_KEYWORDS.map Prod.fst) := by
      rw [hext]; exact List.Sublist.map Prod.fst (List.filter_sublist _)
    refine ⟨by rw [hext]; exact fun h => hc h, hsub.nodup hkey, ?_, Or.inl hsub⟩
    intro t
    rw [hext]
    constructor
    · intro ht
      rcases List.mem_map.1 ht with ⟨p, hp, hfst⟩
      rcases List.mem_filter.1 hp with ⟨hpTK, hpr⟩
      rcases List.any_eq_true.1 hpr with ⟨kw, hkw, hmatch⟩
      exact Or.inl ⟨p, hpTK, hfst, kw, hkw, hmatch⟩
    · rintro (⟨p, hp, hfst, kw, hkw, hmatch⟩ | ⟨rfl, hnone⟩)
      · exact List.mem_map.2 ⟨p, List.mem_filter.2 ⟨hp, List.any_eq_true.2 ⟨kw, hkw, hmatch⟩⟩, hfst⟩
      · exfalso
        apply hc
        rw [List.map_eq_nil_iff, List.filter_eq_nil_iff]
        intro p hp
        simp only [List.any_eq_true, not_exists]
        push_neg
        intro kw hkw
        simp [hnone p hp kw hkw]

/-- C4 witness: the round-trip example text of the specification yields a
non-empty topic list. -/
theorem claim_C4_witness :
    extract_topics "Excellent service! The team was very professional and efficient. They completed the work on time and the quality was outstanding." ≠ [] :=
  (claim_C4 "Excellent service! The team was very professional and efficient. They completed the work on time and the quality was outstanding.").1

theorem find?_get_all_reviews (rows : List DbRow) (review_id : String) :
    (get_all_reviews rows).find? (fun r => r.id = review_id) =
      (rows.find? (fun row => row.id = review_id)).map rowToReview := by
  unfold get_all_reviews
  rw [List.find?_map]
  rfl

theorem find_review_isSome (st : SysState) (review_id : String)
    (h : (st.db.find? (fun row => row.id = review_id)).isSome = true) :
    ∃ rv, find_review st review_id = some rv := by
  unfold find_review
  cases hm : st.mem.find? (fun r => r.id = review_id) with
  | some r => exact ⟨r, rfl⟩
  | none =>
      rw [find?_get_all_reviews]
      rcases Option.isSome_iff_exists.1 h with ⟨row, hrow⟩
      exact ⟨rowToReview row, by rw [hrow]; rfl⟩

theorem isSome_find?_of_get_suggested_reply {rows : List DbRow} {review_id s : String}
    (h : get_suggested_reply rows review_id = some s) :
    (rows.find? (fun row => row.id = review_id)).isSome = true := by
  unfold get_suggested_reply at h
  cases hf : rows.find? (fun row => row.id = review_id) with
  | some row => rfl
  | none => rw [hf] at h; exact absurd h (by simp)

theorem get_suggested_reply_after_update (rows : List DbRow) (review_id s : String)
    (hany : rows.any (fun row => row.id = review_id) = true) (hs : s ≠ "") :
    get_suggested_reply (add_suggested_reply false rows review_id s).2 review_id = some s := by
  have hupd : (add_suggested_reply false rows review_id s).2 =
      rows.map (fun row =>
        if row.id = review_id then { row with suggested_reply := some s } else row) := by
    unfold add_suggested_reply
    simp [hany]
  rw [hupd]
  unfold get_suggested_reply
  rw [List.find?_map]
  have hpred : ((fun (r : DbRow) => decide (r.id = review_id)) ∘
      (fun row => if row.id = review_id then { row with suggested_reply := some s } else row)) =
      (fun (row : DbRow) => decide (row.id = review_id)) := by
    funext row
    by_cases h : row.id = review_id <;> simp [h]
  rw [hpred]
  rcases List.any_eq_true.1 hany with ⟨row, hrow, hid⟩
  have hsome : (rows.find? (fun row => row.id = review_id)).isSome = true :=
    List.find?_isSome.2 ⟨row, hrow, hid⟩
  rcases Option.isSome_iff_exists.1 hsome with ⟨row', hrow'⟩
  have hid' : row'.id = review_id := by simpa using List.find?_some hrow'
  rw [hrow']
  simp [hid', hs]

/-- C1 counterexample: with "r1" present in the store with no cached reply
and a generator whose first invocation yields the empty string, two
successive generate-reply calls invoke the generator twice and return two
different suggested_reply strings. -/
theorem claim_C1_counterexample :
    (generate_reply_ep (fun k => if k = 0 then "" else "Thanks!") false
        ⟨[], [⟨"r1", "NY", 5, "2025-10-04", "some text", "neutral", ["general"], none⟩]⟩
        0 "r1").1 =
      .ok ⟨"r1", "some text", ""⟩ ∧
    (generate_reply_ep (fun k => if k = 0 then "" else "Thanks!") false
        (generate_reply_ep (fun k => if k = 0 then "" else "Thanks!") false
          ⟨[], [⟨"r1", "NY", 5, "2025-10-04", "some text", "neutral", ["general"], none⟩]⟩
          0 "r1").2.2
        (generate_reply_ep (fun k => if k = 0 then "" else "Thanks!") false
          ⟨[], [⟨"r1", "NY", 5, "2025-10-04", "some text", "neutral", ["general"], none⟩]⟩
          0 "r1").2.1 "r1").1 =
      .ok ⟨"r1", "some text", "Thanks!"⟩ ∧
    (generate_reply_ep (fun k => if k = 0 then "" else "Thanks!") false
        (generate_reply_ep (fun k => if k = 0 then "" else "Thanks!") false
          ⟨[], [⟨"r1", "NY", 5, "2025-10-04", "some text", "neutral", ["general"], none⟩]⟩
          0 "r1").2.2
        (generate_reply_ep (fun k => if k = 0 then "" else "Thanks!") false
          ⟨[], [⟨"r1", "NY", 5, "2025-10-04", "some text", "neutral", ["general"], none⟩]⟩
          0 "r1").2.1 "r1").2.1 = 2 ∧
    ("" : String) ≠ "Thanks!" ∧ ¬ (2 ≤ 1) := by
  refine ⟨rfl, rfl, rfl, by decide, by decide⟩

/-- C1 amended: for a review id present as a row of the database, and a
generator all of whose invocations return non-empty strings, two
successive generate-reply calls return the same suggested_reply and the
generator is invoked at most once across them; whenever a non-empty
stored reply exists for the id, it is returned as-is with zero generator
invocations. -/
theorem claim_C1_amended (gen : Nat → String) (st : SysState) (review_id : String)
    (hdb : (st.db.find? (fun row => row.id = review_id)).isSome = true)
    (hgen : ∀ k, gen k ≠ "") :
    (∃ a b,
      (generate_reply_ep gen false st 0 review_id).1 = .ok a ∧
      (generate_reply_ep gen false (generate_reply_ep gen false st 0 review_id).2.2
        (generate_reply_ep gen false st 0 review_id).2.1 review_id).1 = .ok b ∧
      a.suggested_reply = b.suggested_reply) ∧
    (generate_reply_ep gen false (generate_reply_ep gen false st 0 review_id).2.2
      (generate_reply_ep gen false st 0 review_id).2.1 review_id).2.1 ≤ 1 ∧
    (∀ cached, get_suggested_reply st.db review_id = some cached →
      ∃ a, (generate_reply_ep gen false st 0 review_id).1 = .ok a ∧
        a.suggested_reply = cached ∧
        (generate_reply_ep gen false st 0 review_id).2.1 = 0) := by
  obtain ⟨rv, hrv⟩ := find_review_isSome st review_id hdb
  cases hcache : get_suggested_reply st.db review_id with
  | some c =>
      have h1 : generate_reply_ep gen false st 0 review_id =
          (.ok ⟨review_id, rv.text, c⟩, 0, st) := by
        unfold generate_reply_ep; rw [hrv, hcache]
      refine ⟨⟨⟨review_id, rv.text, c⟩, ⟨review_id, rv.text, c⟩,
          by rw [h1], by simp only [h1], rfl⟩, by simp only [h1]; omega, ?_⟩
      intro cached hc
      obtain rfl : c = cached := Option.some.inj hc
      exact ⟨⟨review_id, rv.text, c⟩, by rw [h1], rfl, by rw [h1]⟩
  | none =>
      have hanyid : st.db.any (fun row => row.id = review_id) = true := by
        rw [List.any_eq_true]
        rcases List.find?_isSome.1 hdb with ⟨row, hrow, hp⟩
        exact ⟨row, hrow, hp⟩
      have h1 : generate_reply_ep gen false st 0 review_id =
          (.ok ⟨review_id, rv.text, gen 0⟩, 1,
            ⟨st.mem, (add_suggested_reply false st.db review_id (gen 0)).2⟩) := by
        unfold generate_reply_ep; rw [hrv, hcache]
      have hget1 : get_suggested_reply
          (SysState.mk st.mem (add_suggested_reply false st.db review_id (gen 0)).2).db
          review_id = some (gen 0) :=
        get_suggested_reply_after_update _ _ _ hanyid (hgen 0)
      have hdb1 := isSome_find?_of_get_suggested_reply hget1
      obtain ⟨rv1, hrv1⟩ := find_review_isSome
        ⟨st.mem, (add_suggested_reply false st.db review_id (gen 0)).2⟩ review_id hdb1
      have h2 : generate_reply_ep gen false
          ⟨st.mem, (add_suggested_reply false st.db review_id (gen 0)).2⟩ 1 review_id =
          (.ok ⟨review_id, rv1.text, gen 0⟩, 1,
            ⟨st.mem, (add_suggested_reply false st.db review_id (gen 0)).2⟩) := by
        unfold generate_reply_ep; rw [hrv1, hget1]
      refine ⟨⟨⟨review_id, rv.text, gen 0⟩, ⟨review_id, rv1.text, gen 0⟩,
          by rw [h1], by simp only [h1, h2], rfl⟩, by simp only [h1, h2]; omega, ?_⟩
      intro cached hc
      exact absurd hc (by simp)

/-- C1 witness: a concrete store with a cached reply "Hello" for "r1"
satisfies the hypotheses of the amended claim; the generator count across
the two successive calls is at most one. -/
theorem claim_C1_witness :
    (generate_reply_ep (fun _ => "Thanks") false
      (generate_reply_ep (fun _ => "Thanks") false
        ⟨[], [⟨"r1", "NY", 5, "2025-10-04", "good", "positive", ["general"], some "Hello"⟩]⟩
        0 "r1").2.2
      (generate_reply_ep (fun _ => "Thanks") false
        ⟨[], [⟨"r1", "NY", 5, "2025-10-04", "good", "positive", ["general"], some "Hello"⟩]⟩
        0 "r1").2.1 "r1").2.1 ≤ 1 :=
  (claim_C1_amended (fun _ => "Thanks")
    ⟨[], [⟨"r1", "NY", 5, "2025-10-04", "good", "positive", ["general"], some "Hello"⟩]⟩
    "r1" (by decide) (fun _ => by show ("Thanks" : String) ≠ ""; decide)).2.1

/-- C8: when the review is found, no reply is cached, and the attempt to
persist the freshly generated reply fails (missing row or storage fault),
generate-reply still succeeds and returns the freshly generated reply,
and the generator was invoked exactly once. -/
theorem claim_C8 (gen : Nat → String) (writeFault : Bool) (st : SysState)
    (calls : Nat) (review_id : String) (rv : Review)
    (hfound : find_review st review_id = some rv)
    (hmiss : get_suggested_reply st.db review_id = none)
    (_hfail : (add_suggested_reply writeFault st.db review_id (gen calls)).1 = false) :
    (generate_reply_ep gen writeFault st calls review_id).1 =
      .ok ⟨review_id, rv.text, gen calls⟩ ∧
    (generate_reply_ep gen writeFault st calls review_id).2.1 = calls + 1 := by
  constructor <;> (unfold generate_reply_ep; rw [hfound, hmiss])

/-- C8 witness: with "r2" only in the in-memory tier (so the database
UPDATE touches no row and reports failure), generate-reply still returns
the fresh reply. -/
theorem claim_C8_witness :
    (generate_reply_ep (fun _ => "Sorry to hear that") false
        ⟨[⟨"r2", "LA", 1, "2025-10-03", "bad", "negative", ["general"]⟩], []⟩ 0 "r2").1 =
      .ok ⟨"r2", "bad", "Sorry to hear that"⟩ ∧
    (generate_reply_ep (fun _ => "Sorry to hear that") false
        ⟨[⟨"r2", "LA", 1, "2025-10-03", "bad", "negative", ["general"]⟩], []⟩ 0 "r2").2.1 = 1 :=
  claim_C8 (fun _ => "Sorry to hear that") false
    ⟨[⟨"r2", "LA", 1, "2025-10-03", "bad", "negative", ["general"]⟩], []⟩ 0 "r2"
    ⟨"r2", "LA", 1, "2025-10-03", "bad", "negative", ["general"]⟩ (by decide) rfl rfl

/-- C9: a stored suggested_reply equal to the empty string is reported as
absent: get_suggested_reply returns none, the reply-fetch endpoint answers
not-found, and a generate-reply call invokes the generator again instead
of returning the cached empty string. -/
theorem claim_C9 (st : SysState) (review_id : String) (row : DbRow)
    (gen : Nat → String) (writeFault : Bool) (calls : Nat)
    (hfind : st.db.find? (fun r => r.id = review_id) = some row)
    (hempty : row.suggested_reply = some "") :
    get_suggested_reply st.db review_id = none ∧
    (∃ d, get_reply_ep st.db review_id = .error (.notFound d)) ∧
    (∃ a, (generate_reply_ep gen writeFault st calls review_id).1 = .ok a ∧
      a.suggested_reply = gen calls ∧
      (generate_reply_ep gen writeFault st calls review_id).2.1 = calls + 1) := by
  have hnone : get_suggested_reply st.db review_id = none := by
    unfold get_suggested_reply
    rw [hfind]
    simp [hempty]
  have hdb : (st.db.find? (fun r => r.id = review_id)).isSome = true := by rw [hfind]; rfl
  obtain ⟨rv, hrv⟩ := find_review_isSome st review_id hdb
  refine ⟨hnone, ⟨"No reply found for review " ++ review_id, ?_⟩,
      ⟨⟨review_id, rv.text, gen calls⟩, ?_, rfl, ?_⟩⟩
  · unfold get_reply_ep; rw [hnone]
  · unfold generate_reply_ep; rw [hrv, hnone]
  · unfold generate_reply_ep; rw [hrv, hnone]

/-- C9 witness: a concrete row for "r3" whose stored reply is the empty
string is reported as having no reply, and generate-reply regenerates. -/
theorem claim_C9_witness :
    get_suggested_reply [⟨"r3", "NY", 5, "2025-10-04", "t", "neutral", ["general"], some ""⟩]
        "r3" = none ∧
    (∃ d, get_reply_ep [⟨"r3", "NY", 5, "2025-10-04", "t", "neutral", ["general"], some ""⟩]
        "r3" = .error (.notFound d)) ∧
    (∃ a, (generate_reply_ep (fun _ => "Hi") false
        ⟨[], [⟨"r3", "NY", 5, "2025-10-04", "t", "neutral", ["general"], some ""⟩]⟩
        0 "r3").1 = .ok a ∧
      a.suggested_reply = (fun (_ : Nat) => "Hi") 0 ∧
      (generate_reply_ep (fun _ => "Hi") false
        ⟨[], [⟨"r3", "NY", 5, "2025-10-04", "t", "neutral", ["general"], some ""⟩]⟩
        0 "r3").2.1 = 0 + 1) :=
  claim_C9 ⟨[], [⟨"r3", "NY", 5, "2025-10-04", "t", "neutral", ["general"], some ""⟩]⟩
    "r3" ⟨"r3", "NY", 5, "2025-10-04", "t", "neutral", ["general"], some ""⟩
    (fun _ => "Hi") false 0 rfl rfl

theorem lastMatchIdxAux_spec (review_id : String) :
    ∀ (xs : List String) (i : Nat) (acc : Option Nat),
      (lastMatchIdxAux review_id xs i acc = acc ∧ review_id ∉ xs) ∨
      (∃ k, k < xs.length ∧ xs.getD k "" = review_id ∧
        lastMatchIdxAux review_id xs i acc = some (i + k)) := by
  intro xs
  induction xs with
  | nil => intro i acc; exact Or.inl ⟨rfl, by simp⟩
  | cons x xs ih =>
      intro i acc
      have step : lastMatchIdxAux review_id (x :: xs) i acc =
          lastMatchIdxAux review_id xs (i + 1) (if x = review_id then some i else acc) := rfl
      rcases ih (i + 1) (if x = review_id then some i else acc) with ⟨heq, hnot⟩ | ⟨k, hk, hget, heq⟩
      · by_cases hx : x = review_id
        · refine Or.inr ⟨0, by simp, by simpa using hx, ?_⟩
          rw [step, heq]
          simp [hx]
        · refine Or.inl ⟨by rw [step, heq]; simp [hx], ?_⟩
          intro hmem
          rcases List.mem_cons.1 hmem with h | h
          · exact hx h.symm
          · exact hnot h
      · refine Or.inr ⟨k + 1, by simpa using Nat.succ_lt_succ hk, by simpa using hget, ?_⟩
        rw [step, heq]
        exact congrArg some (by omega)

theorem find_similar_reviews_spec (review_id : String) (all_reviews : List Review)
    (cosine_sims : List ℚ)
    (hlen : cosine_sims.length = all_reviews.length)
    (hnn : ∀ x ∈ cosine_sims, 0 ≤ x)
    (hnd : (all_reviews.map (fun r => r.id)).Nodup)
    (h2 : 2 ≤ all_reviews.length)
    (hmem : review_id ∈ all_reviews.map (fun r => r.id)) :
    ∃ (out : List String) (idxs : List Nat),
      find_similar_reviews review_id all_reviews cosine_sims = .ok out ∧
      out = idxs.map (fun i => (all_reviews.map (fun r => r.id)).getD i "") ∧
      out.length = min 2 (all_reviews.length - 1) ∧
      idxs.Nodup ∧ out.Nodup ∧
      (∀ i ∈ idxs, i < all_reviews.length ∧
        (all_reviews.map (fun r => r.id)).getD i "" ≠ review_id) ∧
      review_id ∉ out ∧
      (∀ x ∈ out, x ∈ all_reviews.map (fun r => r.id)) ∧
      idxs.Pairwise (fun i j => cosine_sims.getD j 0 ≤ cosine_sims.getD i 0) ∧
      (∀ j, j < all_reviews.length →
        (all_reviews.map (fun r => r.id)).getD j "" ≠ review_id → j ∉ idxs →
        ∀ i ∈ idxs, cosine_sims.getD j 0 ≤ cosine_sims.getD i 0) := by
  classical
  set n := all_reviews.length with hn
  set ids := all_reviews.map (fun r => r.id) with hids
  have hidslen : ids.length = n := by rw [hids, List.length_map]
  -- the target index returned by the lookup loop
  obtain ⟨t, htlt, hgett, ht⟩ :
      ∃ t, t < n ∧ ids.getD t "" = review_id ∧ lastMatchIdx review_id ids = some t := by
    rcases lastMatchIdxAux_spec review_id ids 0 none with ⟨-, hnot⟩ | ⟨k, hk, hget, heq⟩
    · exact absurd hmem hnot
    · exact ⟨k, hidslen ▸ hk, hget, by rw [lastMatchIdx, heq, Nat.zero_add]⟩
  have htlt' : t < cosine_sims.length := by rw [hlen]; exact htlt
  set sims := cosine_sims.set t (-1) with hsims
  have hsimslen : sims.length = n := by rw [hsims, List.length_set, hlen]
  have htval : sims.getD t 0 = -1 := by
    rw [List.getD_eq_getElem sims 0 (by rw [hsimslen]; exact htlt)]
    exact List.getElem_set_self _
  have hother : ∀ j, j < n → j ≠ t → sims.getD j 0 = cosine_sims.getD j 0 := by
    intro j hj hjt
    have hj' : j < cosine_sims.length := by rw [hlen]; exact hj
    rw [List.getD_eq_getElem sims 0 (by rw [hsimslen]; exact hj),
      List.getD_eq_getElem cosine_sims 0 hj']
    exact List.getElem_set_ne (fun h => hjt h.symm) _
  have hother_nn : ∀ j, j < n → j ≠ t → (0 : ℚ) ≤ sims.getD j 0 := by
    intro j hj hjt
    rw [hother j hj hjt]
    have hj' : j < cosine_sims.length := by rw [hlen]; exact hj
    rw [List.getD_eq_getElem cosine_sims 0 hj']
    exact hnn _ (List.getElem_mem hj')
  set num := min 2 (n - 1) with hnum
  have hnum1 : 1 ≤ num := by omega
  have hnum2 : num ≤ n - 1 := min_le_right _ _
  have hnumn : num ≤ n := by omega
  set sorted := argsortAsc sims with hsorted_def
  have hsortedlen : sorted.length = n := by
    rw [hsorted_def, argsortAsc, List.length_insertionSort, List.length_range, hsimslen]
  have hperm : sorted.Perm (List.range sims.length) :=
    List.perm_insertionSort _ _
  have hmem_sorted : ∀ j, j ∈ sorted ↔ j < n := by
    intro j
    rw [hperm.mem_iff, List.mem_range, hsimslen]
  have hsortednd : sorted.Nodup := hperm.symm.nodup (List.nodup_range _)
  have hpw : sorted.Pairwise (simLe sims) :=
    List.sorted_insertionSort (simLe sims) _
  set tk := sorted.take (sorted.length - num) with htk
  set dp := sorted.drop (sorted.length - num) with hdp
  have happend : tk ++ dp = sorted := List.take_append_drop _ _
  have hdplen : dp.length = num := by
    rw [hdp, List.length_drop, hsortedlen]
    omega
  have htklen : tk.length = n - num := by
    have := congrArg List.length happend
    rw [List.length_append, hdplen, hsortedlen] at this
    omega
  have hcross : ∀ a ∈ tk, ∀ b ∈ dp, simLe sims a b := by
    have := (List.pairwise_append.1 (happend ▸ hpw)).2.2
    exact this
  have hdisj : ∀ a ∈ tk, a ∉ dp := by
    have hnd2 : (tk ++ dp).Nodup := happend ▸ hsortednd
    intro a ha hb
    exact (List.disjoint_of_nodup_append hnd2) ha hb
  have hmem_split : ∀ j ∈ sorted, j ∈ tk ∨ j ∈ dp := by
    intro j hj
    rw [← happend] at hj
    exact List.mem_append.1 hj
  -- the forced -1 self-similarity keeps the target out of the selected tail
  have htnotdp : t ∉ dp := by
    intro htdp
    have htk_ne : tk ≠ [] := by
      intro h
      rw [h] at htklen
      simp at htklen
      omega
    obtain ⟨x, hx⟩ := List.exists_mem_of_ne_nil tk htk_ne
    have hxs : x ∈ sorted := by rw [← happend]; exact List.mem_append_left _ hx
    have hxn : x < n := (hmem_sorted x).1 hxs
    have hxt : x ≠ t := fun h => hdisj x hx (h ▸ htdp)
    have hle : simLe sims x t := hcross x hx t htdp
    have h0 : (0 : ℚ) ≤ sims.getD x 0 := hother_nn x hxn hxt
    rw [simLe, htval] at hle
    linarith
  have hdpmem : ∀ i ∈ dp, i < n ∧ i ≠ t := by
    intro i hi
    have his : i ∈ sorted := by rw [← happend]; exact List.mem_append_right _ hi
    exact ⟨(hmem_sorted i).1 his, fun h => htnotdp (h ▸ hi)⟩
  have hgetne : ∀ i, i < n → i ≠ t → ids.getD i "" ≠ review_id := by
    intro i hin hit heq
    have hi' : i < ids.length := by rw [hidslen]; exact hin
    have ht' : t < ids.length := by rw [hidslen]; exact htlt
    rw [List.getD_eq_getElem ids "" hi'] at heq
    rw [List.getD_eq_getElem ids "" ht'] at hgett
    exact hit ((hnd.getElem_inj_iff).1 (heq.trans hgett.symm))
  refine ⟨dp.reverse.map (fun idx => ids.getD idx ""), dp.reverse, ?_, rfl, ?_, ?_, ?_, ?_, ?_, ?_, ?_, ?_⟩
  -- the result value
  · rw [hids] at ht
    unfold find_similar_reviews
    rw [if_neg (show ¬ all_reviews.length < 2 by omega)]
    rw [ht]
  -- length
  · rw [List.length_map, List.length_reverse, hdplen]
  -- index Nodup
  · exact List.nodup_reverse.2 ((List.drop_sublist _ _).nodup hsortednd)
  -- output Nodup
  · apply List.Nodup.map_on
    · intro i hi j hj hij
      have hi' := hdpmem i (List.mem_reverse.1 hi)
      have hj' := hdpmem j (List.mem_reverse.1 hj)
      have hii : i < ids.length := by rw [hidslen]; exact hi'.1
      have hjj : j < ids.length := by rw [hidslen]; exact hj'.1
      rw [List.getD_eq_getElem ids "" hii, List.getD_eq_getElem ids "" hjj] at hij
      exact (hnd.getElem_inj_iff).1 hij
    · exact List.nodup_reverse.2 ((List.drop_sublist _ _).nodup hsortednd)
  -- bounds and non-query indices
  · intro i hi
    have h := hdpmem i (List.mem_reverse.1 hi)
    exact ⟨h.1, hgetne i h.1 h.2⟩
  -- the query id is never selected
  · intro hq
    rcases List.mem_map.1 hq with ⟨i, hi, hqi⟩
    have h := hdpmem i (List.mem_reverse.1 hi)
    exact hgetne i h.1 h.2 hqi
  -- every selected id is an id of the corpus
  · intro x hx
    rcases List.mem_map.1 hx with ⟨i, hi, rfl⟩
    have h := hdpmem i (List.mem_reverse.1 hi)
    have hi' : i < ids.length := by rw [hidslen]; exact h.1
    rw [List.getD_eq_getElem ids "" hi']
    exact List.getElem_mem hi'
  -- descending similarity order
  · have hdppw : dp.Pairwise (simLe sims) := List.Pairwise.sublist (List.drop_sublist _ _) hpw
    have hrev : dp.reverse.Pairwise (fun i j => simLe sims j i) :=
      List.pairwise_reverse.2 hdppw
    refine hrev.imp_of_mem ?_
    intro a b ha hb hle
    have hA := hdpmem a (List.mem_reverse.1 ha)
    have hB := hdpmem b (List.mem_reverse.1 hb)
    rw [simLe, hother a hA.1 hA.2, hother b hB.1 hB.2] at hle
    exact hle
  -- every unselected non-query index has no higher similarity
  · intro j hjn hjne hjnot i hi
    have hII := hdpmem i (List.mem_reverse.1 hi)
    have hjt : j ≠ t := by
      intro h
      exact hjne (h ▸ hgett)
    have hjs : j ∈ sorted := (hmem_sorted j).2 hjn
    have hjtk : j ∈ tk := by
      rcases hmem_split j hjs with h | h
      · exact h
      · exact absurd (List.mem_reverse.2 h) hjnot
    have hle : simLe sims j i := hcross j hjtk i (List.mem_reverse.1 hi)
    rw [simLe, hother j hjn hjt, hother i hII.1 hII.2] at hle
    exact hle

/-- C6: with fewer than 2 reviews the similarity lookup returns the empty
list; with at least 2 reviews and an absent query id it fails with a
not-found error; otherwise it returns exactly min(2, corpus size - 1)
review ids, never the query id, drawn from distinct non-query corpus
positions, ranked by descending cosine similarity (every selected index
has similarity at least that of every unselected non-query index).  The
cosine-similarity row of the external TF-IDF vectorizer enters as a
parameter whose entries are non-negative, and the corpus carries the
store invariant of pairwise-distinct ids. -/
theorem claim_C6 (review_id : String) (all_reviews : List Review) (cosine_sims : List ℚ)
    (hlen : cosine_sims.length = all_reviews.length)
    (hnn : ∀ x ∈ cosine_sims, 0 ≤ x)
    (hnd : (all_reviews.map (fun r => r.id)).Nodup) :
    (all_reviews.length < 2 → find_similar_reviews review_id all_reviews cosine_sims = .ok []) ∧
    (2 ≤ all_reviews.length → review_id ∉ all_reviews.map (fun r => r.id) →
      ∃ msg, find_similar_reviews review_id all_reviews cosine_sims = .error msg) ∧
    (2 ≤ all_reviews.length → review_id ∈ all_reviews.map (fun r => r.id) →
      ∃ out, find_similar_reviews review_id all_reviews cosine_sims = .ok out ∧
        out.length = min 2 (all_reviews.length - 1) ∧
        review_id ∉ out ∧
        ∃ idxs : List Nat,
          out = idxs.map (fun i => (all_reviews.map (fun r => r.id)).getD i "") ∧
          idxs.Nodup ∧
          (∀ i ∈ idxs, i < all_reviews.length ∧
            (all_reviews.map (fun r => r.id)).getD i "" ≠ review_id) ∧
          idxs.Pairwise (fun i j => cosine_sims.getD j 0 ≤ cosine_sims.getD i 0) ∧
          (∀ j, j < all_reviews.length →
            (all_reviews.map (fun r => r.id)).getD j "" ≠ review_id → j ∉ idxs →
            ∀ i ∈ idxs, cosine_sims.getD j 0 ≤ cosine_sims.getD i 0)) := by
  refine ⟨?_, ?_, ?_⟩
  · intro h
    unfold find_similar_reviews
    rw [if_pos h]
  · intro h2 habs
    have hnone : lastMatchIdx review_id (all_reviews.map (fun r => r.id)) = none := by
      rcases lastMatchIdxAux_spec review_id (all_reviews.map (fun r => r.id)) 0 none with
        ⟨heq, -⟩ | ⟨k, hk, hget, -⟩
      · exact heq
      · exfalso
        apply habs
        have hk' : k < (all_reviews.map (fun r => r.id)).length := hk
        rw [List.getD_eq_getElem _ "" hk'] at hget
        exact hget ▸ List.getElem_mem hk'
    refine ⟨"Review with ID " ++ review_id ++ " not found", ?_⟩
    unfold find_similar_reviews
    rw [if_neg (by omega), hnone]
  · intro h2 hmem
    obtain ⟨out, idxs, hok, hmap, hlen2, hnodup_idxs, hnodup_out, hbound, hnot, hsub, hpw, htop⟩ :=
      find_similar_reviews_spec review_id all_reviews cosine_sims hlen hnn hnd h2 hmem
    exact ⟨out, hok, hlen2, hnot, idxs, hmap, hnodup_idxs, hbound, hpw, htop⟩

/-- C6 witness: on a 3-review corpus containing the query id "a" with a
concrete similarity row, the lookup returns exactly two ids, not
including "a", ranked as specified. -/
theorem claim_C6_witness :
    ∃ out, find_similar_reviews "a"
        [⟨"a", "NY", 5, "d1", "great service", "positive", ["customer_service"]⟩,
         ⟨"b", "LA", 3, "d2", "ok service", "neutral", ["customer_service"]⟩,
         ⟨"c", "SF", 1, "d3", "bad service", "negative", ["customer_service"]⟩]
        [1, 1/2, 1/4] = .ok out ∧
      out.length = min 2
        (([⟨"a", "NY", 5, "d1", "great service", "positive", ["customer_service"]⟩,
          ⟨"b", "LA", 3, "d2", "ok service", "neutral", ["customer_service"]⟩,
          ⟨"c", "SF", 1, "d3", "bad service", "negative",
            ["customer_service"]⟩] : List Review).length - 1) ∧
      "a" ∉ out ∧
      ∃ idxs : List Nat,
        out = idxs.map (fun i =>
          (([⟨"a", "NY", 5, "d1", "great service", "positive", ["customer_service"]⟩,
            ⟨"b", "LA", 3, "d2", "ok service", "neutral", ["customer_service"]⟩,
            ⟨"c", "SF", 1, "d3", "bad service", "negative",
              ["customer_service"]⟩] : List Review).map (fun r => r.id)).getD i "") ∧
        idxs.Nodup ∧
        (∀ i ∈ idxs, i <
            ([⟨"a", "NY", 5, "d1", "great service", "positive", ["customer_service"]⟩,
             ⟨"b", "LA", 3, "d2", "ok service", "neutral", ["customer_service"]⟩,
             ⟨"c", "SF", 1, "d3", "bad service", "negative",
               ["customer_service"]⟩] : List Review).length ∧
          (([⟨"a", "NY", 5, "d1", "great service", "positive", ["customer_service"]⟩,
            ⟨"b", "LA", 3, "d2", "ok service", "neutral", ["customer_service"]⟩,
            ⟨"c", "SF", 1, "d3", "bad service", "negative",
              ["customer_service"]⟩] : List Review).map (fun r => r.id)).getD i "" ≠ "a") ∧
        idxs.Pairwise (fun i j =>
          ([1, 1/2, 1/4] : List ℚ).getD j 0 ≤ ([1, 1/2, 1/4] : List ℚ).getD i 0) ∧
        (∀ j, j <
            ([⟨"a", "NY", 5, "d1", "great service", "positive", ["customer_service"]⟩,
             ⟨"b", "LA", 3, "d2", "ok service", "neutral", ["customer_service"]⟩,
             ⟨"c", "SF", 1, "d3", "bad service", "negative",
               ["customer_service"]⟩] : List Review).length →
          (([⟨"a", "NY", 5, "d1", "great service", "positive", ["customer_service"]⟩,
            ⟨"b", "LA", 3, "d2", "ok service", "neutral", ["customer_service"]⟩,
            ⟨"c", "SF", 1, "d3", "bad service", "negative",
              ["customer_service"]⟩] : List Review).map (fun r => r.id)).getD j "" ≠ "a" →
          j ∉ idxs →
          ∀ i ∈ idxs,
            ([1, 1/2, 1/4] : List ℚ).getD j 0 ≤ ([1, 1/2, 1/4] : List ℚ).getD i 0) :=
  (claim_C6 "a"
      [⟨"a", "NY", 5, "d1", "great service", "positive", ["customer_service"]⟩,
       ⟨"b", "LA", 3, "d2", "ok service", "neutral", ["customer_service"]⟩,
       ⟨"c", "SF", 1, "d3", "bad service", "negative", ["customer_service"]⟩]
      [1, 1/2, 1/4] rfl
      (by intro x hx
          simp only [List.mem_cons, List.not_mem_nil, or_false] at hx
          rcases hx with rfl | rfl | rfl <;> norm_num)
      (by decide)).2.2 (by decide) (by decide)

/-- C10: on a corpus of at least 2 reviews with pairwise-distinct ids that
contains the query id, the returned sequence consists of pairwise-distinct
ids, each the id of some corpus review other than the query review. -/
theorem claim_C10 (review_id : String) (all_reviews : List Review) (cosine_sims : List ℚ)
    (hlen : cosine_sims.length = all_reviews.length)
    (hnn : ∀ x ∈ cosine_sims, 0 ≤ x)
    (hnd : (all_reviews.map (fun r => r.id)).Nodup)
    (h2 : 2 ≤ all_reviews.length)
    (hmem : review_id ∈ all_reviews.map (fun r => r.id)) :
    ∃ out, find_similar_reviews review_id all_reviews cosine_sims = .ok out ∧
      out.Nodup ∧
      ∀ x ∈ out, x ∈ all_reviews.map (fun r => r.id) ∧ x ≠ review_id := by
  obtain ⟨out, idxs, hok, hmap, -, -, hnodup_out, hbound, hnot, hsub, -, -⟩ :=
    find_similar_reviews_spec review_id all_reviews cosine_sims hlen hnn hnd h2 hmem
  refine ⟨out, hok, hnodup_out, ?_⟩
  intro x hx
  refine ⟨hsub x hx, ?_⟩
  intro h
  exact hnot (h ▸ hx)

/-- C10 witness: a concrete 3-review corpus with query id "b": the result
ids are pairwise distinct, belong to the corpus, and exclude "b". -/
theorem claim_C10_witness :
    ∃ out, find_similar_reviews "b"
        [⟨"a", "NY", 5, "d1", "fine work", "positive", ["general"]⟩,
         ⟨"b", "LA", 3, "d2", "fair work", "neutral", ["general"]⟩,
         ⟨"c", "SF", 1, "d3", "poor work", "negative", ["general"]⟩]
        [1/3, 1, 1/5] = .ok out ∧
      out.Nodup ∧
      ∀ x ∈ out,
        x ∈ ([⟨"a", "NY", 5, "d1", "fine work", "positive", ["general"]⟩,
             ⟨"b", "LA", 3, "d2", "fair work", "neutral", ["general"]⟩,
             ⟨"c", "SF", 1, "d3", "poor work", "negative",
               ["general"]⟩] : List Review).map (fun r => r.id) ∧
          x ≠ "b" :=
  claim_C10 "b"
    [⟨"a", "NY", 5, "d1", "fine work", "positive", ["general"]⟩,
     ⟨"b", "LA", 3, "d2", "fair work", "neutral", ["general"]⟩,
     ⟨"c", "SF", 1, "d3", "poor work", "negative", ["general"]⟩]
    [1/3, 1, 1/5] rfl
    (by intro x hx
        simp only [List.mem_cons, List.not_mem_nil, or_false] at hx
        rcases hx with rfl | rfl | rfl <;> norm_num)
    (by decide) (by decide) (by decide)

end ReviewCopilot
